import Mathlib

/-!
Verification of the schema-auditor repository (src/api.py and src/api/main.py)
against its natural-language specification.

The two Python files are shallowly embedded as Lean definitions.  External
collaborators are modelled as inputs:
  * the headless browser delivers either a navigation error message or a
    rendered page / DOM (`Except String _`);
  * the text-generation service call is an input of type `ServiceOutcome`
    (transport failure, a reply that is not valid JSON, or a parsed JSON
    reply) — `json.loads` and the in-page `JSON.parse` are modelled by the
    parse outcome they produce;
  * Python machine strings are Lean `String`s (lists of characters).
-/

/-- JSON values, the shape of everything `json.loads` / `JSON.parse` can
return in the two source files. -/
inductive Json where
  | null : Json
  | bool : Bool → Json
  | num : Int → Json
  | str : String → Json
  | arr : List Json → Json
  | obj : List (String × Json) → Json

/-- Lookup of a key in a JSON object's field list; Python `dict` lookup
(`result["violations"]`, `v.get(k)`).  Python dicts have unique keys, so
first-match lookup is faithful. -/
def lookupField : List (String × Json) → String → Option Json
  | [], _ => none
  | (k, v) :: rest, key => if k == key then some v else lookupField rest key

/-- The `Violation` pydantic model of src/api/main.py lines 19-22:
`severity : str`, `description : str`, `policy_reference : Optional[str]`.
Pydantic validates the field types at construction; a value that fails
validation never ends up stored — it raises instead (see `Main.coerceOne`). -/
structure Violation where
  severity : String
  description : String
  policy_reference : Option String

/-- A raised `fastapi.HTTPException`: status code and detail message. -/
structure HTTPError where
  status_code : Nat
  detail : String
deriving DecidableEq, Repr

/-- Outcome of one call to the external text-generation service, as seen by
the Python code: the HTTP call itself raised; or it returned a body that
`json.loads` rejects; or it returned a body parsing to a JSON value. -/
inductive ServiceOutcome where
  | transportErr : String → ServiceOutcome
  | replyInvalid : String → ServiceOutcome
  | replyJson : Json → ServiceOutcome

namespace Main

/-- src/api/main.py lines 90-96: shape dispatch on the parsed reply.
`isinstance(result, list)` takes the array as the violations list;
`isinstance(result, dict) and "violations" in result` takes that key's
value; everything else defaults to an empty list. -/
def violationsDataOf : Json → Json
  | .arr vs => .arr vs
  | .obj fields =>
    match lookupField fields "violations" with
    | some v => v
    | none => .arr []
  | _ => .arr []

/-- The 500 raised when constructing the pydantic `Violation` fails: the
`ValidationError` is caught by the `except Exception` of src/api/main.py
lines 115-119 and becomes `HTTPException(500, "OpenAI API error: ...")`.
The detail text approximates the Python message; no claim depends on it. -/
def validationError : HTTPError :=
  ⟨500, "OpenAI API error: 1 validation error for Violation"⟩

/-- Pydantic validation of a `str` field (pydantic v2): only an actual
string is accepted; any other present value — `None`, number, bool, list,
dict — raises `ValidationError`. -/
def asPyStr : Json → Option String
  | .str s => some s
  | _ => none

/-- Pydantic validation of an `Optional[str]` field: `None` (a missing key
or a JSON null handed through `v.get`) and strings are accepted; any other
value raises `ValidationError`. -/
def asPyOptStr : Option Json → Option (Option String)
  | none => some none
  | some .null => some none
  | some (.str s) => some (some s)
  | some _ => none

/-- src/api/main.py lines 100-106: one iteration of the coercion loop.
A non-`dict` entry is skipped (`isinstance(v, dict)`, result `.ok none`).
For a `dict` entry, `v.get("severity", "Low")` / `v.get("description", "")`
/ `v.get("policy_reference")` are read — other keys of `v` are never
read — and `Violation(...)` is constructed, which pydantic-validates the
three values: a missing `severity` becomes the string "Low" and a missing
`description` the empty string, but a present value of the wrong type
raises `ValidationError`, surfaced as the 500 of lines 115-119. -/
def coerceOne : Json → Except HTTPError (Option Violation)
  | .obj fields =>
    match asPyStr ((lookupField fields "severity").getD (.str "Low")),
          asPyStr ((lookupField fields "description").getD (.str "")),
          asPyOptStr (lookupField fields "policy_reference") with
    | some sev, some desc, some pr => .ok (some ⟨sev, desc, pr⟩)
    | _, _, _ => .error validationError
  | _ => .ok none

/-- src/api/main.py lines 99-106: the `for v in violations_data` loop.
Converted entries are appended in order; a skipped entry contributes
nothing; a `ValidationError` aborts the loop at the first failing entry
and propagates. -/
def coerceLoop : List Json → Except HTTPError (List Violation)
  | [] => .ok []
  | v :: rest =>
    match coerceOne v with
    | .error e => .error e
    | .ok none => coerceLoop rest
    | .ok (some viol) => (coerceLoop rest).map (viol :: ·)

/-- src/api/main.py lines 99-106 applied to `violations_data`: a Python
`list` is iterated element-wise; iterating a `str` yields characters and a
`dict` yields its keys (none of which is a dict, so both produce an empty
list); iterating any other value raises `TypeError`, which the surrounding
`except Exception` turns into a 500 `HTTPException` (detail text
approximates the Python `TypeError` message; no claim depends on it). -/
def coerceViolations : Json → Except HTTPError (List Violation)
  | .arr vs => coerceLoop vs
  | .str _ => .ok []
  | .obj _ => .ok []
  | _ => .error ⟨500, "OpenAI API error: argument of type is not iterable"⟩

/-- src/api/main.py lines 86-119: handling of the service outcome inside
`validate_schema_with_openai` — `json.loads`, shape dispatch, coercion, and
the two `except` clauses. -/
def normalizeReply : ServiceOutcome → Except HTTPError (List Violation)
  | .transportErr msg => .error ⟨500, "OpenAI API error: " ++ msg⟩
  | .replyInvalid msg => .error ⟨500, "Failed to parse OpenAI response: " ++ msg⟩
  | .replyJson j => coerceViolations (violationsDataOf j)

/-- src/api/main.py lines 35-119, `validate_schema_with_openai`: the
api-key guard (lines 39-43) followed by the service call and reply
normalization.  `cfg` is whether `OPENAI_API_KEY` is configured. -/
def validate_schema_with_openai (cfg : Bool) (svc : ServiceOutcome) :
    Except HTTPError (List Violation) :=
  if cfg then normalizeReply svc
  else .error ⟨500,
    "OpenAI API key not configured. Set OPENAI_API_KEY environment variable."⟩

end Main

/-- Computed style of an element as `window.getComputedStyle` reports it in
the walker of src/api/main.py lines 182-185: the three properties the code
reads, as strings. -/
structure Style where
  display : String
  visibility : String
  opacity : String
deriving DecidableEq, Repr

/-- A DOM node: a text node, or an element with tag name, optional `type`
attribute, computed style and children. -/
inductive Node where
  | text : String → Node
  | elem : String → Option String → Style → List Node → Node

/-- The rendered document handed to the two `page.evaluate` blocks of
src/api/main.py: the body's own computed style and the forest of nodes
below `document.body`.  The code's ancestor walk stops strictly before
`body` (`while (parent && parent !== body)`, line 181), so `bodyStyle` is
recorded here but never read by the extraction functions — exactly as in
the source. -/
structure Dom where
  bodyStyle : Style
  children : List Node

/-- `script.textContent`: concatenation of all text nodes of a subtree
forest, in document order. -/
def textContentList : List Node → String
  | [] => ""
  | .text s :: rest => s ++ textContentList rest
  | .elem _ _ _ children :: rest => textContentList children ++ textContentList rest

/-- src/api/main.py line 142: the elements matched by
`document.querySelectorAll('script[type="application/ld+json"]')`, in
document order, each reduced to its `textContent`. -/
def ldScriptContents : List Node → List String
  | [] => []
  | .text _ :: rest => ldScriptContents rest
  | .elem tag ty _ children :: rest =>
    (if tag == "script" && ty == some "application/ld+json"
     then [textContentList children] else [])
      ++ ldScriptContents children ++ ldScriptContents rest

/-- src/api/main.py lines 144-157: the contribution of one selected script
to the `jsonLd` array.  `JSON.parse` failure (`catch`) contributes nothing;
a parsed top-level array is spread (`jsonLd.push(...data)`); any other
parsed value is pushed as a single entry.  `parse` is the browser's
`JSON.parse`, modelled by its outcome. -/
def jsonLdOfScript (parse : String → Option Json) (content : String) : List Json :=
  match parse content with
  | none => []
  | some (.arr vs) => vs
  | some j => [j]

/-- src/api/main.py lines 140-160: the whole first `page.evaluate` block —
select the ld+json scripts, then fold their contributions in order. -/
def collectJsonLdList (parse : String → Option Json) (ns : List Node) : List Json :=
  ((ldScriptContents ns).map (jsonLdOfScript parse)).flatten

/-- Tags removed by src/api/main.py line 166,
`document.querySelectorAll('script, style, noscript')`. -/
def isSSNTag (tag : String) : Bool :=
  tag == "script" || tag == "style" || tag == "noscript"

/-- src/api/main.py lines 166-167: `scripts.forEach(el => el.remove())` —
every script/style/noscript subtree is removed from the document. -/
def removeSSN : List Node → List Node
  | [] => []
  | .text s :: rest => .text s :: removeSSN rest
  | .elem tag ty st children :: rest =>
    if isSSNTag tag then removeSSN rest
    else .elem tag ty st (removeSSN children) :: removeSSN rest

/-- Whether a forest still contains a script, style or noscript element
anywhere. -/
def hasSSN : List Node → Bool
  | [] => false
  | .text _ :: rest => hasSSN rest
  | .elem tag _ _ children :: rest => isSSNTag tag || hasSSN children || hasSSN rest

/-- src/api/main.py lines 183-185: the condition on one ancestor's computed
style that makes the walker reject a text node. -/
def hiddenStyle (st : Style) : Bool :=
  st.display == "none" || st.visibility == "hidden" || st.opacity == "0"

/-- The `TreeWalker` of src/api/main.py lines 174-202 visits every text
node under `body` in document order; `node.parentElement` chains stop
strictly before `body`.  This enumerates each text node paired with that
ancestor chain (nearest ancestor first), which is what `acceptNode`
inspects. -/
def walkTexts (chain : List (String × Style)) : List Node → List (String × List (String × Style))
  | [] => []
  | .text s :: rest => (s, chain) :: walkTexts chain rest
  | .elem tag _ st children :: rest =>
    walkTexts ((tag, st) :: chain) children ++ walkTexts chain rest

/-- src/api/main.py lines 178-191, `acceptNode`: walk the ancestor chain
(strictly below `body`) and reject if any ancestor's computed style is
hidden. -/
def acceptNode (chain : List (String × Style)) : Bool :=
  !(chain.any fun p => hiddenStyle p.2)

/-- JS `String.prototype.trim` / the `\s` class of line 205, restricted to
the ASCII whitespace the embedded texts use. -/
def trimLead (l : List Char) : List Char := l.dropWhile Char.isWhitespace

/-- Removal of trailing whitespace characters. -/
def trimTrail : List Char → List Char
  | [] => []
  | c :: cs =>
    match trimTrail cs with
    | [] => if c.isWhitespace then [] else [c]
    | r => c :: r

/-- JS `.trim()`: leading and trailing whitespace removed. -/
def trimChars (l : List Char) : List Char := trimTrail (trimLead l)

/-- JS `.trim()` on a string. -/
def trimString (s : String) : String := String.mk (trimChars s.data)

/-- src/api/main.py line 205, `.replace(/\s+/g, ' ')`: every maximal run of
whitespace characters becomes a single space. -/
def collapseWs : List Char → List Char
  | [] => []
  | c :: cs =>
    if c.isWhitespace then ' ' :: collapseWs (cs.dropWhile Char.isWhitespace)
    else c :: collapseWs cs
termination_by l => l.length
decreasing_by
  · simp only [List.length_cons]
    exact Nat.lt_succ_of_le ((List.dropWhile_sublist _).length_le)
  · simp

/-- src/api/main.py lines 195-202: what one visited text node contributes
to `textParts` — nothing if `acceptNode` rejects its ancestor chain,
otherwise its trimmed content when nonempty. -/
def acceptPart (p : String × List (String × Style)) : Option String :=
  if acceptNode p.2 then
    (if trimString p.1 == "" then none else some (trimString p.1))
  else none

/-- src/api/main.py lines 195-202: the accepted text parts — each visited
text node's content is trimmed and kept only if nonempty. -/
def textPartsOf (ns : List Node) : List String :=
  (walkTexts [] ns).filterMap acceptPart

/-- src/api/main.py line 205: `textParts.join(' ')`. -/
def joinParts (parts : List String) : String := String.intercalate " " parts

/-- src/api/main.py line 205: `.replace(/\s+/g, ' ').trim()`. -/
def jsCleanup (s : String) : String := String.mk (trimChars (collapseWs s.data))

/-- src/api/main.py lines 163-207, the second `page.evaluate` block applied
to an already script-stripped forest: walk, filter, join, clean up. -/
def visibleTextOfForest (ns : List Node) : String :=
  jsCleanup (joinParts (textPartsOf ns))

/-- The full visible-text extraction of src/api/main.py lines 163-207:
remove script/style/noscript subtrees, then walk the remaining text
nodes. -/
def mainVisibleTextList (ns : List Node) : String :=
  visibleTextOfForest (removeSSN ns)

/-- Visible-text extraction on a document. -/
def mainVisibleTextDom (d : Dom) : String := mainVisibleTextList d.children

/-- src/api/main.py lines 139-207 as one state-passing step: JSON-LD
collection runs first on the intact document; the visible-text block then
mutates the live DOM by deleting script/style/noscript subtrees and walks
the result.  Returns (collected JSON-LD, visible text, DOM after the
scan's reads). -/
def mainExtractPhase (parse : String → Option Json) (d : Dom) :
    List Json × String × Dom :=
  let jsonLd := collectJsonLdList parse d.children
  let d' : Dom := ⟨d.bodyStyle, removeSSN d.children⟩
  (jsonLd, visibleTextOfForest d'.children, d')

/-- The response body of a successful src/api/main.py scan, the
`ScanResponse` pydantic model of lines 29-32. -/
structure ScanResponse where
  json_ld : List Json
  visible_text : String
  violations : List Violation

/-- Result of one run of a scan handler: the HTTP outcome and how many
times the external text-generation service was invoked during the run. -/
structure ScanRun (α : Type) where
  result : Except HTTPError α
  serviceCalls : Nat

namespace Main

/-- src/api/main.py lines 122-223, `scan_url`: navigate (any
navigation/extraction exception inside the `with` block is caught by
`except Exception` and becomes a 500, lines 222-223), extract JSON-LD and
visible text, close the browser, call the analyzer unconditionally, and
either return a `ScanResponse` or re-raise the analyzer's `HTTPException`
(lines 220-221).  The `create` call of line 76 runs whenever the api-key
guard passes, so the service is invoked exactly when `cfg` holds. -/
def scan_url (parse : String → Option Json) (cfg : Bool)
    (nav : Except String Dom) (svc : ServiceOutcome) : ScanRun ScanResponse :=
  match nav with
  | .error msg => ⟨.error ⟨500, "Error scanning URL: " ++ msg⟩, 0⟩
  | .ok d =>
    let ext := mainExtractPhase parse d
    match validate_schema_with_openai cfg svc with
    | .error e => ⟨.error e, if cfg then 1 else 0⟩
    | .ok viols => ⟨.ok ⟨ext.1, ext.2.1, viols⟩, if cfg then 1 else 0⟩

end Main

namespace Api

/-- The rendered page as src/api.py reads it: the title (line 71), the raw
`innerText` of every `script[type="application/ld+json"]` element in
document order (lines 82-85 — api.py keeps the raw strings and never
parses them), and the engine-computed `page.inner_text("body")`
(line 88). -/
structure Page where
  title : String
  ldScriptTexts : List String
  bodyInnerText : String

/-- src/api.py lines 99-105: the response returned without any service
call when `schema_data` is empty. -/
def noSchemaResponse (title : String) : Json :=
  .obj [("status", .str "Fail"),
        ("summary", .str ("No Schema Markup found. (Page Title: \x27" ++ title ++ "\x27).")),
        ("risks", .arr [])]

/-- src/api.py lines 31-162, `scan_url`: any scraping exception becomes a
400 (lines 93-96); an empty `schema_data` short-circuits to the local Fail
response (lines 99-105) with no service call; otherwise the service is
invoked once and any exception in the AI block — transport failure or
`json.loads` failure alike — becomes a 500 "AI Analysis failed"
(lines 151-153); a parsed reply is returned as-is (line 149). -/
def scan_url (nav : Except String Page) (svc : ServiceOutcome) : ScanRun Json :=
  match nav with
  | .error msg => ⟨.error ⟨400, "Scraping failed. Error: " ++ msg⟩, 0⟩
  | .ok page =>
    if page.ldScriptTexts.isEmpty then ⟨.ok (noSchemaResponse page.title), 0⟩
    else
      match svc with
      | .transportErr _ => ⟨.error ⟨500, "AI Analysis failed"⟩, 1⟩
      | .replyInvalid _ => ⟨.error ⟨500, "AI Analysis failed"⟩, 1⟩
      | .replyJson j => ⟨.ok j, 1⟩

end Api

/-- Whether `u` is a well-formed absolute URL.  Modelled from the spec's
invariant ("url must be a well-formed absolute URL") and from the pydantic
`HttpUrl` validator that src/api/main.py line 26 delegates to (a library
collaborator, not repository code): an http(s) scheme followed by a
nonempty host. -/
def isWellFormedAbsoluteUrl (u : String) : Bool :=
  ("http://".data.isPrefixOf u.data && decide (7 < u.data.length)) ||
    ("https://".data.isPrefixOf u.data && decide (8 < u.data.length))

/-- What happened to one incoming request before/at the handler boundary. -/
structure Handle (α : Type) where
  rejectedBeforeNetwork : Bool
  navigationAttempted : Bool
  scan : Option α

/-- The request boundary of src/api/main.py: `ScanRequest.url : HttpUrl`
(line 26) makes the framework validate the url before `scan_url` runs; a
malformed url is rejected with a validation error and the handler body —
browser, navigation, service call — never executes.  A well-formed url
reaches `scan_url`, which always attempts navigation. -/
def mainHandleRequest (parse : String → Option Json) (cfg : Bool) (u : String)
    (nav : Except String Dom) (svc : ServiceOutcome) : Handle (ScanRun ScanResponse) :=
  if isWellFormedAbsoluteUrl u then ⟨false, true, some (Main.scan_url parse cfg nav svc)⟩
  else ⟨true, false, none⟩

/-- The request boundary of src/api.py: `ScanRequest.url : str` (lines
28-29) accepts any string, so every request reaches `scan_url`, which
launches the browser and calls `page.goto(request.url)` (line 68) before
any error can surface. -/
def apiHandleRequest (_u : String) (nav : Except String Api.Page)
    (svc : ServiceOutcome) : Handle (ScanRun Json) :=
  ⟨false, true, some (Api.scan_url nav svc)⟩

/-- The browser-side resources of one scan: whether the playwright driver
connection is active and whether the launched browser is open. -/
structure Resources where
  driverActive : Bool
  browserOpen : Bool
deriving DecidableEq, Repr

/-- Entering `with sync_playwright()` / `async with async_playwright()`. -/
def pwStart (r : Resources) : Resources := { r with driverActive := true }

/-- `p.chromium.launch(...)`. -/
def browserLaunch (r : Resources) : Resources := { r with browserOpen := true }

/-- `browser.close()`. -/
def browserCloseStep (r : Resources) : Resources := { r with browserOpen := false }

/-- Exiting the playwright context manager.  Python runs `__exit__` /
`__aexit__` on the normal path, on `return`, and while an exception
unwinds; playwright's stop tears down the driver connection, which
terminates every browser launched through it. -/
def pwStop (_ : Resources) : Resources := ⟨false, false⟩

/-- Resource-state trace of one src/api/main.py `scan_url` run.
`navFails` covers any exception between launch and extraction (goto
timeout, evaluate error); `analysisFails` is an `HTTPException` raised by
`validate_schema_with_openai`.  In main.py `browser.close()` (line 209)
runs before the analyzer (line 212), and the `with` block exit runs on the
return path, on the `except HTTPException: raise` path, and on the
`except Exception` path alike, so both analysis outcomes produce the same
trace. -/
def mainScanResourceTrace (navFails analysisFails : Bool) : List Resources :=
  let r0 : Resources := ⟨false, false⟩
  let r1 := pwStart r0
  let r2 := browserLaunch r1
  if navFails then [r0, r1, r2, pwStop r2]
  else
    let r3 := browserCloseStep r2
    if analysisFails then [r0, r1, r2, r3, pwStop r3]
    else [r0, r1, r2, r3, pwStop r3]

/-- Resource-state trace of one src/api.py `scan_url` run.  `scrapeFails`
covers any exception inside the `async with` block (lines 40-91); the AI
stage (lines 108 onward) runs after the block has exited and touches no
browser resource, so its outcome `aiFails` does not change the trace. -/
def apiScanResourceTrace (scrapeFails aiFails : Bool) : List Resources :=
  let r0 : Resources := ⟨false, false⟩
  let r1 := pwStart r0
  let r2 := browserLaunch r1
  if scrapeFails then [r0, r1, r2, pwStop r2]
  else
    let r3 := browserCloseStep r2
    if aiFails then [r0, r1, r2, r3, pwStop r3]
    else [r0, r1, r2, r3, pwStop r3]

/-- src/api/main.py line 60: `visible_text[:5000]`. -/
def mainLimitVisibleText (s : List Char) : List Char := s.take 5000

/-- src/api.py line 108: `visible_text[:15000]` inside the prompt. -/
def apiLimitVisibleText (s : List Char) : List Char := s.take 15000

/-- Whether `n` is a client-error HTTP status. -/
def is4xx (n : Nat) : Bool := 400 ≤ n && n < 500

/-- Whether `pat` occurs at the head of `l`. -/
def matchesAt : List Char → List Char → Bool
  | _, [] => true
  | [], _ :: _ => false
  | c :: rest, p :: ps => c == p && matchesAt rest ps

/-- Whether `pat` occurs anywhere inside `l`. -/
def containsSub : List Char → List Char → Bool
  | [], pat => pat.isEmpty
  | c :: rest, pat => matchesAt (c :: rest) pat || containsSub rest pat

/-- Substring test on strings. -/
def strContains (s pat : String) : Bool := containsSub s.data pat.data

/-- Spec-side characterization of the visible-text parts, following the
claim's wording with the one amendment the code forces: a text node
contributes its trimmed content iff it is nonempty after trimming, no
ancestor *strictly below the body* has a hidden computed style, and no
ancestor is a script/style/noscript element.  `chain` is the ancestor
chain accumulated from the body downward, nearest ancestor first. -/
def specVisibleParts (chain : List (String × Style)) : List Node → List String
  | [] => []
  | .text s :: rest =>
    (if (chain.any fun p => hiddenStyle p.2) || (chain.any fun p => isSSNTag p.1)
        || trimString s == ""
     then [] else [trimString s]) ++ specVisibleParts chain rest
  | .elem tag _ st children :: rest =>
    specVisibleParts ((tag, st) :: chain) children ++ specVisibleParts chain rest

/-- No two adjacent whitespace characters. -/
def pairFree : List Char → Bool
  | a :: b :: rest => !(a.isWhitespace && b.isWhitespace) && pairFree (b :: rest)
  | _ => true

/-- The first character, if any, is not whitespace. -/
def headNonWs : List Char → Bool
  | [] => true
  | c :: _ => !c.isWhitespace

/-- The last character, if any, is not whitespace. -/
def lastNonWs : List Char → Bool
  | [] => true
  | [c] => !c.isWhitespace
  | _ :: b :: rest => lastNonWs (b :: rest)

/-- Scan the tail of a trimmed-and-collapsed string: no whitespace pair
anywhere and no trailing whitespace. -/
def wellTrimmedAux (prev : Char) : List Char → Bool
  | [] => !prev.isWhitespace
  | b :: rest => !(prev.isWhitespace && b.isWhitespace) && wellTrimmedAux b rest

/-- The output shape the spec requires of the extracted text: trimmed at
both ends, and internal whitespace runs collapsed so no two whitespace
characters are adjacent. -/
def wellTrimmed : List Char → Bool
  | [] => true
  | c :: cs => !c.isWhitespace && wellTrimmedAux c cs

/-- Unfolding equation for `trimTrail` on one leading character. -/
theorem trimTrail_cons (c : Char) (cs : List Char) :
    trimTrail (c :: cs)
      = match trimTrail cs with
        | [] => if c.isWhitespace then [] else [c]
        | r => c :: r := rfl

/-- Unfolding equation for `pairFree` on two leading characters. -/
theorem pairFree_cons_cons (a b : Char) (rest : List Char) :
    pairFree (a :: b :: rest)
      = (!(a.isWhitespace && b.isWhitespace) && pairFree (b :: rest)) := rfl

/-- Dropping a whitespace run leaves a non-whitespace (or no) head. -/
theorem headNonWs_dropWhile (l : List Char) :
    headNonWs (l.dropWhile Char.isWhitespace) = true := by
  induction l with
  | nil => rfl
  | cons c cs ih =>
    by_cases h : c.isWhitespace
    · simpa [List.dropWhile, h] using ih
    · simp [List.dropWhile, h, headNonWs]

/-- `pairFree` is preserved by dropping the head. -/
theorem pairFree_tail {c : Char} {cs : List Char} (h : pairFree (c :: cs) = true) :
    pairFree cs = true := by
  cases cs with
  | nil => rfl
  | cons b rest =>
    rw [pairFree_cons_cons] at h
    exact (Bool.and_eq_true_iff.mp h).2

/-- `pairFree` is preserved by `dropWhile`. -/
theorem pairFree_dropWhile {l : List Char} (h : pairFree l = true) :
    pairFree (l.dropWhile Char.isWhitespace) = true := by
  induction l with
  | nil => rfl
  | cons c cs ih =>
    by_cases hc : c.isWhitespace
    · simpa [List.dropWhile, hc] using ih (pairFree_tail h)
    · simpa [List.dropWhile, hc] using h

/-- `collapseWs` keeps a non-whitespace head. -/
theorem headNonWs_collapseWs {l : List Char} (h : headNonWs l = true) :
    headNonWs (collapseWs l) = true := by
  cases l with
  | nil => simp [collapseWs, headNonWs]
  | cons c cs =>
    have hc : c.isWhitespace = false := by simpa [headNonWs] using h
    simp [collapseWs, hc, headNonWs]

/-- The output of `collapseWs` never has two adjacent whitespace
characters. -/
theorem pairFree_collapseWs (l : List Char) : pairFree (collapseWs l) = true := by
  induction l using collapseWs.induct with
  | case1 => simp [collapseWs, pairFree]
  | case2 c cs h ih =>
    have hh : headNonWs (collapseWs (cs.dropWhile Char.isWhitespace)) = true :=
      headNonWs_collapseWs (headNonWs_dropWhile cs)
    simp only [collapseWs, h, if_true]
    cases hx : collapseWs (cs.dropWhile Char.isWhitespace) with
    | nil => rfl
    | cons x xs =>
      have hxw : x.isWhitespace = false := by
        rw [hx] at hh; simpa [headNonWs] using hh
      rw [hx] at ih
      rw [pairFree_cons_cons]
      simp [hxw, ih]
  | case3 c cs h ih =>
    have hc : c.isWhitespace = false := by simpa using h
    have hstep : collapseWs (c :: cs) = c :: collapseWs cs := by
      simp [collapseWs, hc]
    rw [hstep]
    cases hx : collapseWs cs with
    | nil => rfl
    | cons x xs =>
      rw [hx] at ih
      rw [pairFree_cons_cons]
      simp [hc, ih]

/-- `trimTrail` output is empty or keeps the input's head. -/
theorem trimTrail_head (l : List Char) :
    trimTrail l = [] ∨ (trimTrail l).head? = l.head? := by
  cases l with
  | nil => exact Or.inl rfl
  | cons c cs =>
    cases hr : trimTrail cs with
    | nil =>
      by_cases hc : c.isWhitespace
      · exact Or.inl (by simp [trimTrail, hr, hc])
      · exact Or.inr (by simp [trimTrail, hr, hc])
    | cons x xs => exact Or.inr (by simp [trimTrail, hr])

/-- `trimTrail` keeps a non-whitespace head. -/
theorem headNonWs_trimTrail {l : List Char} (h : headNonWs l = true) :
    headNonWs (trimTrail l) = true := by
  cases l with
  | nil => rfl
  | cons c cs =>
    have hc : c.isWhitespace = false := by simpa [headNonWs] using h
    cases hr : trimTrail cs with
    | nil => simp [trimTrail, hr, hc, headNonWs]
    | cons x xs => simp [trimTrail, hr, headNonWs, hc]

/-- `trimTrail` preserves `pairFree`. -/
theorem pairFree_trimTrail {l : List Char} (h : pairFree l = true) :
    pairFree (trimTrail l) = true := by
  induction l with
  | nil => rfl
  | cons c cs ih =>
    have hcs := ih (pairFree_tail h)
    cases hr : trimTrail cs with
    | nil =>
      by_cases hc : c.isWhitespace <;> simp [trimTrail, hr, hc, pairFree]
    | cons x xs =>
      rw [hr] at hcs
      cases cs with
      | nil => simp [trimTrail] at hr
      | cons d cs' =>
        have hd : x = d := by
          rcases trimTrail_head (d :: cs') with he | hh
          · rw [he] at hr; cases hr
          · rw [hr] at hh; simpa using hh
        subst hd
        have hpair : (!(c.isWhitespace && x.isWhitespace)) = true := by
          rw [pairFree_cons_cons] at h
          exact (Bool.and_eq_true_iff.mp h).1
        have hstep : trimTrail (c :: x :: cs') = c :: x :: xs := by
          rw [trimTrail_cons, hr]
        rw [hstep, pairFree_cons_cons]
        simp [hcs]
        simpa using hpair

/-- `trimTrail` removes all trailing whitespace. -/
theorem lastNonWs_trimTrail (l : List Char) : lastNonWs (trimTrail l) = true := by
  induction l with
  | nil => rfl
  | cons c cs ih =>
    cases hr : trimTrail cs with
    | nil =>
      by_cases hc : c.isWhitespace <;> simp [trimTrail, hr, hc, lastNonWs]
    | cons x xs =>
      rw [hr] at ih
      simp [trimTrail, hr, lastNonWs, ih]

/-- A `pairFree` list with non-whitespace last character passes the tail
scan from any starting character consistent with it. -/
theorem wellTrimmedAux_of {cs : List Char} :
    ∀ {prev : Char}, pairFree (prev :: cs) = true → lastNonWs (prev :: cs) = true →
      wellTrimmedAux prev cs = true := by
  induction cs with
  | nil =>
    intro prev _ hl
    simpa [wellTrimmedAux, lastNonWs] using hl
  | cons b rest ih =>
    intro prev hp hl
    rw [pairFree_cons_cons] at hp
    obtain ⟨h1, h2⟩ := Bool.and_eq_true_iff.mp hp
    have h3 : lastNonWs (b :: rest) = true := by simpa [lastNonWs] using hl
    have hstep : wellTrimmedAux prev (b :: rest)
        = (!(prev.isWhitespace && b.isWhitespace) && wellTrimmedAux b rest) := rfl
    rw [hstep]
    simp [ih h2 h3]
    simpa using h1

/-- A `pairFree` list with clean ends is `wellTrimmed`. -/
theorem wellTrimmed_of {l : List Char} (hp : pairFree l = true)
    (hh : headNonWs l = true) (hl : lastNonWs l = true) : wellTrimmed l = true := by
  cases l with
  | nil => rfl
  | cons c cs =>
    have hc : c.isWhitespace = false := by simpa [headNonWs] using hh
    simp [wellTrimmed, hc, wellTrimmedAux_of hp hl]

/-- The cleanup of src/api/main.py line 205 always yields output that is
trimmed at both ends with no two adjacent whitespace characters. -/
theorem wellTrimmed_trimChars_collapseWs (s : List Char) :
    wellTrimmed (trimChars (collapseWs s)) = true := by
  have h1 : pairFree (collapseWs s) = true := pairFree_collapseWs s
  have h2 : pairFree (trimLead (collapseWs s)) = true := pairFree_dropWhile h1
  have h3 : headNonWs (trimLead (collapseWs s)) = true := headNonWs_dropWhile _
  exact wellTrimmed_of (pairFree_trimTrail h2) (headNonWs_trimTrail h3)
    (lastNonWs_trimTrail _)

/-- After `removeSSN`, no script, style, or noscript element remains
anywhere in the forest. -/
theorem hasSSN_removeSSN (ns : List Node) : hasSSN (removeSSN ns) = false := by
  induction ns using removeSSN.induct with
  | case1 => simp [removeSSN, hasSSN]
  | case2 s rest ih => simp [removeSSN, hasSSN, ih]
  | case3 tag ty st children rest hssn ih => simp [removeSSN, hssn, ih]
  | case4 tag ty st children rest hssn ih1 ih2 =>
    simp [removeSSN, hasSSN, hssn, ih1, ih2]

/-- After `removeSSN`, the ld+json selector matches nothing. -/
theorem ldScriptContents_removeSSN (ns : List Node) :
    ldScriptContents (removeSSN ns) = [] := by
  induction ns using removeSSN.induct with
  | case1 => simp [removeSSN, ldScriptContents]
  | case2 s rest ih => simp [removeSSN, ldScriptContents, ih]
  | case3 tag ty st children rest hssn ih => simp [removeSSN, hssn, ih]
  | case4 tag ty st children rest hssn ih1 ih2 =>
    have hscript : (tag == "script") = false := by
      simp [isSSNTag] at hssn
      simp [hssn.1]
    simp [removeSSN, hssn, ldScriptContents, hscript, ih1, ih2]

/-- `ldScriptContents` distributes over append: the selector enumerates in
document order, independently across siblings. -/
theorem ldScriptContents_append (a b : List Node) :
    ldScriptContents (a ++ b) = ldScriptContents a ++ ldScriptContents b := by
  induction a with
  | nil => simp [ldScriptContents]
  | cons x a' ih =>
    cases x with
    | text s => simp [ldScriptContents, ih]
    | elem tag ty st children => simp [ldScriptContents, ih]

/-- `collectJsonLdList` distributes over append. -/
theorem collectJsonLdList_append (parse : String → Option Json) (a b : List Node) :
    collectJsonLdList parse (a ++ b)
      = collectJsonLdList parse a ++ collectJsonLdList parse b := by
  simp [collectJsonLdList, ldScriptContents_append]

/-- JSON-LD collection on a script-stripped forest yields nothing. -/
theorem collectJsonLdList_removeSSN (parse : String → Option Json) (ns : List Node) :
    collectJsonLdList parse (removeSSN ns) = [] := by
  simp [collectJsonLdList, ldScriptContents_removeSSN]

/-- If the accumulated ancestor chain contains a script/style/noscript
element, the spec-side characterization contributes nothing below it. -/
theorem specVisibleParts_of_ssn (chain : List (String × Style)) (ns : List Node) :
    (chain.any fun p => isSSNTag p.1) = true → specVisibleParts chain ns = [] := by
  induction chain, ns using specVisibleParts.induct with
  | case1 chain => intro h; simp [specVisibleParts]
  | case2 chain s rest ih => intro h; simp [specVisibleParts, h, ih h]
  | case3 chain tag ty st children rest ih1 ih2 =>
    intro h
    have h' : (((tag, st) :: chain).any fun p => isSSNTag p.1) = true := by
      simp [List.any_cons, h]
    simp [specVisibleParts, ih1 h', ih2 h]

/-- The code-side pipeline — strip script/style/noscript subtrees, walk the
remaining text nodes, filter by the ancestor-chain style check — computes
exactly the spec-side characterization, for any ancestor context free of
script/style/noscript elements. -/
theorem filterMap_walkTexts_removeSSN (chain : List (String × Style)) (ns : List Node) :
    (chain.any fun p => isSSNTag p.1) = false →
      (walkTexts chain (removeSSN ns)).filterMap acceptPart = specVisibleParts chain ns := by
  induction chain, ns using specVisibleParts.induct with
  | case1 chain =>
    intro h
    simp [removeSSN, walkTexts, specVisibleParts]
  | case2 chain s rest ih =>
    intro h
    simp only [removeSSN, walkTexts, List.filterMap_cons, specVisibleParts]
    rw [ih h]
    by_cases hh : (chain.any fun p => hiddenStyle p.2) = true
    · simp [acceptPart, acceptNode, hh, h]
    · by_cases ht : (trimString s == "") = true
      · simp [acceptPart, acceptNode, hh, h, ht]
      · simp [acceptPart, acceptNode, hh, h, ht]
  | case3 chain tag ty st children rest ih1 ih2 =>
    intro h
    by_cases hssn : isSSNTag tag
    · have h' : (((tag, st) :: chain).any fun p => isSSNTag p.1) = true := by
        simp [List.any_cons, hssn]
      simp only [removeSSN, hssn, if_true, specVisibleParts]
      rw [ih2 h, specVisibleParts_of_ssn _ _ h']
      simp
    · have h' : (((tag, st) :: chain).any fun p => isSSNTag p.1) = false := by
        simp only [List.any_cons, Bool.or_eq_false_iff]
        exact ⟨by simpa using hssn, h⟩
      have hstep : removeSSN (Node.elem tag ty st children :: rest)
          = Node.elem tag ty st (removeSSN children) :: removeSSN rest := by
        simp [removeSSN, hssn]
      rw [hstep]
      simp only [walkTexts, specVisibleParts]
      rw [List.filterMap_append, ih1 h', ih2 h]

/-- The accepted text parts of the script-stripped document equal the
spec-side characterization started with the empty ancestor chain (the
walker's root is `body`). -/
theorem textPartsOf_removeSSN (ns : List Node) :
    textPartsOf (removeSSN ns) = specVisibleParts [] ns := by
  simpa [textPartsOf] using filterMap_walkTexts_removeSSN [] ns rfl

/-- Claim C1 (corrected).  In src/api.py an empty extracted JSON-LD list
short-circuits: the scan returns the local response with status Fail and an
empty risks list, and the external service is never invoked.  In
src/api/main.py there is no such short-circuit: whenever navigation
succeeds and the api key is configured, the analyzer — and with it the
external service — is invoked exactly once, regardless of whether the
extracted JSON-LD list is empty, and the response model carries no status
field at all. -/
theorem claim_C1_empty_schema :
    (∀ (page : Api.Page) (svc : ServiceOutcome), page.ldScriptTexts.isEmpty = true →
      Api.scan_url (.ok page) svc = ⟨.ok (Api.noSchemaResponse page.title), 0⟩) ∧
    (∀ (parse : String → Option Json) (d : Dom) (svc : ServiceOutcome),
      (Main.scan_url parse true (.ok d) svc).serviceCalls = 1) := by
  constructor
  · intro page svc h
    simp [Api.scan_url, h]
  · intro parse d svc
    unfold Main.scan_url
    cases hv : Main.validate_schema_with_openai true svc <;> simp [hv]

/-- Witness for C1: a concrete page with no ld+json scripts yields the
local Fail response with zero service calls in src/api.py. -/
theorem claim_C1_witness :
    Api.scan_url (.ok ⟨"Home", [], "hello"⟩) (.replyJson Json.null)
      = ⟨.ok (Api.noSchemaResponse "Home"), 0⟩ :=
  claim_C1_empty_schema.1 ⟨"Home", [], "hello"⟩ (.replyJson Json.null) rfl

/-- Counterexample to C1 as stated: a src/api/main.py scan of a page whose
JSON-LD extraction is empty still invokes the external service once. -/
theorem claim_C1_counterexample :
    collectJsonLdList (fun _ => none) [Node.text "hello"] = [] ∧
    (Main.scan_url (fun _ => none) true
        (.ok ⟨⟨"block", "visible", "1"⟩, [Node.text "hello"]⟩)
        (.replyJson (Json.obj [("violations", Json.arr [])]))).serviceCalls = 1 := by
  constructor
  · simp [collectJsonLdList, ldScriptContents]
  · rfl

/-- Claim C2 (confirmed).  The src/api/main.py analyzer normalizes every
parsed reply: a top-level array is the violations list directly; an object
with a `violations` key yields that key's value; any other top-level shape
yields an empty violations list without raising.  Each dict entry is
coerced reading only its `severity`, `description` and `policy_reference`
keys: a missing severity defaults to "Low", a missing description to "",
`policy_reference` stays optional, and unknown extra fields are ignored.
A present field value that fails pydantic's `str` / `Optional[str]`
validation raises, aborting the loop with the 500 of lines 115-119 — the
error path is part of the embedding, not collapsed. -/
theorem claim_C2_normalization :
    (∀ vs : List Json, Main.violationsDataOf (Json.arr vs) = Json.arr vs) ∧
    (∀ fields : List (String × Json), Main.violationsDataOf (Json.obj fields)
      = (lookupField fields "violations").getD (Json.arr [])) ∧
    (Main.normalizeReply (.replyJson Json.null) = .ok []) ∧
    (∀ b, Main.normalizeReply (.replyJson (Json.bool b)) = .ok []) ∧
    (∀ n, Main.normalizeReply (.replyJson (Json.num n)) = .ok []) ∧
    (∀ s, Main.normalizeReply (.replyJson (Json.str s)) = .ok []) ∧
    (∀ fields, lookupField fields "violations" = none →
      Main.normalizeReply (.replyJson (Json.obj fields)) = .ok []) ∧
    (∀ vs, Main.normalizeReply (.replyJson (Json.arr vs)) = Main.coerceLoop vs) ∧
    (∀ fields vs, lookupField fields "violations" = some (Json.arr vs) →
      Main.normalizeReply (.replyJson (Json.obj fields)) = Main.coerceLoop vs) ∧
    (∀ fields sev desc pr,
      Main.asPyStr ((lookupField fields "severity").getD (Json.str "Low")) = some sev →
      Main.asPyStr ((lookupField fields "description").getD (Json.str "")) = some desc →
      Main.asPyOptStr (lookupField fields "policy_reference") = some pr →
      Main.coerceOne (Json.obj fields) = .ok (some ⟨sev, desc, pr⟩)) ∧
    (∀ fields desc pr, lookupField fields "severity" = none →
      Main.asPyStr ((lookupField fields "description").getD (Json.str "")) = some desc →
      Main.asPyOptStr (lookupField fields "policy_reference") = some pr →
      Main.coerceOne (Json.obj fields) = .ok (some ⟨"Low", desc, pr⟩)) ∧
    (∀ fields sev pr, lookupField fields "description" = none →
      Main.asPyStr ((lookupField fields "severity").getD (Json.str "Low")) = some sev →
      Main.asPyOptStr (lookupField fields "policy_reference") = some pr →
      Main.coerceOne (Json.obj fields) = .ok (some ⟨sev, "", pr⟩)) ∧
    (∀ (k : String) (v : Json) fields,
      k ≠ "severity" → k ≠ "description" → k ≠ "policy_reference" →
      Main.coerceOne (Json.obj ((k, v) :: fields)) = Main.coerceOne (Json.obj fields)) ∧
    (∀ (v : Json) rest e, Main.coerceOne v = .error e →
      Main.coerceLoop (v :: rest) = .error e) ∧
    (∀ fields,
      Main.asPyStr ((lookupField fields "severity").getD (Json.str "Low")) = none →
      Main.coerceOne (Json.obj fields) = .error Main.validationError) := by
  refine ⟨fun vs => rfl, ?_, rfl, fun b => rfl, fun n => rfl, fun s => rfl,
    ?_, fun vs => rfl, ?_, ?_, ?_, ?_, ?_, ?_, ?_⟩
  · intro fields
    cases h : lookupField fields "violations" <;>
      simp [Main.violationsDataOf, h]
  · intro fields h
    simp [Main.normalizeReply, Main.violationsDataOf, h, Main.coerceViolations,
      Main.coerceLoop]
  · intro fields vs h
    simp [Main.normalizeReply, Main.violationsDataOf, h, Main.coerceViolations]
  · intro fields sev desc pr h1 h2 h3
    simp [Main.coerceOne, h1, h2, h3]
  · intro fields desc pr h1 h2 h3
    have hsev : Main.asPyStr ((lookupField fields "severity").getD (Json.str "Low"))
        = some "Low" := by simp [h1, Main.asPyStr]
    simp [Main.coerceOne, hsev, h2, h3]
  · intro fields sev pr h1 h2 h3
    have hdesc : Main.asPyStr ((lookupField fields "description").getD (Json.str ""))
        = some "" := by simp [h1, Main.asPyStr]
    simp [Main.coerceOne, hdesc, h2, h3]
  · intro k v fields h1 h2 h3
    have b1 : (k == "severity") = false := by simpa using h1
    have b2 : (k == "description") = false := by simpa using h2
    have b3 : (k == "policy_reference") = false := by simpa using h3
    simp [Main.coerceOne, lookupField, b1, b2, b3]
  · intro v rest e h
    simp [Main.coerceLoop, h]
  · intro fields h
    simp [Main.coerceOne, h]

/-- Witness for C2: concrete replies exercising the object-with-violations
shape, the object-without-violations shape, the missing-field defaults,
the extra-field rule, and the validation-failure path. -/
theorem claim_C2_witness :
    Main.normalizeReply (.replyJson (Json.obj
        [("violations", Json.arr [Json.obj [("note", Json.str "x")]])]))
      = .ok [⟨"Low", "", none⟩] ∧
    Main.normalizeReply (.replyJson (Json.obj [("other", Json.null)])) = .ok [] ∧
    Main.coerceOne (Json.obj [("zzz", Json.null), ("severity", Json.str "High")])
      = Main.coerceOne (Json.obj [("severity", Json.str "High")]) ∧
    Main.coerceOne (Json.obj [("severity", Json.str "High"), ("description", Json.str "d")])
      = .ok (some ⟨"High", "d", none⟩) ∧
    Main.coerceOne (Json.obj [("severity", Json.null)]) = .error Main.validationError := by
  refine ⟨?_, ?_, ?_, ?_, ?_⟩
  · have h := claim_C2_normalization.2.2.2.2.2.2.2.2.1
      [("violations", Json.arr [Json.obj [("note", Json.str "x")]])]
      [Json.obj [("note", Json.str "x")]] (by simp [lookupField])
    rw [h]; rfl
  · exact claim_C2_normalization.2.2.2.2.2.2.1 [("other", Json.null)]
      (by simp [lookupField])
  · exact claim_C2_normalization.2.2.2.2.2.2.2.2.2.2.2.2.1 "zzz" Json.null
      [("severity", Json.str "High")] (by decide) (by decide) (by decide)
  · exact claim_C2_normalization.2.2.2.2.2.2.2.2.2.1
      [("severity", Json.str "High"), ("description", Json.str "d")]
      "High" "d" none rfl rfl rfl
  · exact claim_C2_normalization.2.2.2.2.2.2.2.2.2.2.2.2.2.2
      [("severity", Json.null)] rfl

/-- Claim C3 (confirmed).  A service reply that is not valid JSON makes the
analyze step fail with a structured server error (500): in src/api/main.py
the `json.JSONDecodeError` handler raises detail "Failed to parse OpenAI
response: ...", re-raised unchanged by `scan_url`; in src/api.py the AI
block's handler raises 500 "AI Analysis failed".  Both errors are distinct
from the respective fetch errors, and no unhandled exception escapes — the
outcome is always a definite `HTTPError`. -/
theorem claim_C3_analysis_error :
    (∀ (parse : String → Option Json) (d : Dom) (msg : String),
      (Main.scan_url parse true (.ok d) (.replyInvalid msg)).result
        = .error ⟨500, "Failed to parse OpenAI response: " ++ msg⟩) ∧
    (∀ (page : Api.Page) (msg : String), page.ldScriptTexts.isEmpty = false →
      Api.scan_url (.ok page) (.replyInvalid msg)
        = ⟨.error ⟨500, "AI Analysis failed"⟩, 1⟩) ∧
    (∀ m m' : String, (⟨500, "Failed to parse OpenAI response: " ++ m⟩ : HTTPError)
        ≠ ⟨500, "Error scanning URL: " ++ m'⟩) ∧
    (∀ m : String, (⟨500, "AI Analysis failed"⟩ : HTTPError)
        ≠ ⟨400, "Scraping failed. Error: " ++ m⟩) := by
  refine ⟨?_, ?_, ?_, ?_⟩
  · intro parse d msg
    rfl
  · intro page msg h
    simp [Api.scan_url, h]
  · intro m m' heq
    have hd : ("Failed to parse OpenAI response: " ++ m).data
        = ("Error scanning URL: " ++ m').data :=
      congrArg (fun e => e.detail.data) heq
    rw [String.data_append, String.data_append] at hd
    have h1 : ("Failed to parse OpenAI response: ".data ++ m.data).head? = some 'F' := rfl
    have h2 : ("Error scanning URL: ".data ++ m'.data).head? = some 'E' := rfl
    rw [hd] at h1
    exact absurd (h1.symm.trans h2) (by decide)
  · intro m heq
    have h5 : (500 : Nat) = 400 := congrArg HTTPError.status_code heq
    exact absurd h5 (by decide)

/-- Witness for C3: a concrete src/api.py scan with schema present and an
invalid-JSON reply yields the 500 analysis error. -/
theorem claim_C3_witness :
    Api.scan_url (.ok ⟨"T", ["raw"], "body"⟩) (.replyInvalid "Expecting value")
      = ⟨.error ⟨500, "AI Analysis failed"⟩, 1⟩ :=
  claim_C3_analysis_error.2.1 ⟨"T", ["raw"], "body"⟩ "Expecting value" rfl

/-- Claim C4 (corrected).  A navigation failure produces a single
HTTPException with no retry, no service call and no partial result — but
only src/api.py surfaces it as a client error (400, detail "Scraping
failed. Error: ..."); src/api/main.py surfaces it as a server error (500,
detail "Error scanning URL: ..."). -/
theorem claim_C4_fetch_error :
    (∀ (msg : String) (svc : ServiceOutcome), Api.scan_url (.error msg) svc
      = ⟨.error ⟨400, "Scraping failed. Error: " ++ msg⟩, 0⟩) ∧
    (∀ (parse : String → Option Json) (cfg : Bool) (msg : String)
        (svc : ServiceOutcome), Main.scan_url parse cfg (.error msg) svc
      = ⟨.error ⟨500, "Error scanning URL: " ++ msg⟩, 0⟩) ∧
    is4xx 400 = true ∧ is4xx 500 = false := by
  exact ⟨fun msg svc => rfl, fun parse cfg msg svc => rfl, by decide, by decide⟩

/-- Counterexample to C4 as stated: in src/api/main.py a navigation timeout
surfaces as a 500 — not a 4xx — and its message contains neither "scrape"
nor "fetch". -/
theorem claim_C4_counterexample :
    (Main.scan_url (fun _ => none) true
        (.error "Timeout 30000ms exceeded.") (.replyJson Json.null)).result
      = .error ⟨500, "Error scanning URL: Timeout 30000ms exceeded."⟩ ∧
    is4xx 500 = false ∧
    strContains "Error scanning URL: Timeout 30000ms exceeded." "scrape" = false ∧
    strContains "Error scanning URL: Timeout 30000ms exceeded." "fetch" = false := by
  exact ⟨rfl, by decide, by decide, by decide⟩

/-- Claim C5 (corrected).  Only src/api/main.py rejects a malformed url
before any network action (pydantic `HttpUrl` validation at the request
boundary): the handler body — navigation and service call — never runs.
src/api.py declares `url : str`, accepts every string, and attempts
browser navigation for all of them, malformed urls included. -/
theorem claim_C5_url_validation :
    (∀ (parse : String → Option Json) (cfg : Bool) (u : String)
        (nav : Except String Dom) (svc : ServiceOutcome),
      isWellFormedAbsoluteUrl u = false →
        mainHandleRequest parse cfg u nav svc = ⟨true, false, none⟩) ∧
    (∀ (parse : String → Option Json) (cfg : Bool) (u : String)
        (nav : Except String Dom) (svc : ServiceOutcome),
      isWellFormedAbsoluteUrl u = true →
        mainHandleRequest parse cfg u nav svc
          = ⟨false, true, some (Main.scan_url parse cfg nav svc)⟩) ∧
    (∀ (u : String) (nav : Except String Api.Page) (svc : ServiceOutcome),
      (apiHandleRequest u nav svc).rejectedBeforeNetwork = false ∧
      (apiHandleRequest u nav svc).navigationAttempted = true) := by
  refine ⟨?_, ?_, ?_⟩
  · intro parse cfg u nav svc h
    simp [mainHandleRequest, h]
  · intro parse cfg u nav svc h
    simp [mainHandleRequest, h]
  · intro u nav svc
    exact ⟨rfl, rfl⟩

/-- Witness for C5: a concretely malformed url is rejected before the
network by the src/api/main.py boundary, and a concretely well-formed one
reaches the scan. -/
theorem claim_C5_witness :
    mainHandleRequest (fun _ => none) true "not a url"
        (.error "boom") (.replyJson Json.null) = ⟨true, false, none⟩ ∧
    mainHandleRequest (fun _ => none) true "https://example.com"
        (.error "boom") (.replyJson Json.null)
      = ⟨false, true,
          some (Main.scan_url (fun _ => none) true (.error "boom") (.replyJson Json.null))⟩ := by
  constructor
  · exact claim_C5_url_validation.1 _ _ _ _ _ (by decide)
  · exact claim_C5_url_validation.2.1 _ _ _ _ _ (by decide)

/-- Counterexample to C5 as stated: in src/api.py a request whose url is
not a well-formed absolute URL is not rejected before any network action —
navigation is attempted. -/
theorem claim_C5_counterexample :
    isWellFormedAbsoluteUrl "not a url" = false ∧
    (apiHandleRequest "not a url" (.error "net::ERR_NAME_NOT_RESOLVED")
        (.replyJson Json.null)).navigationAttempted = true ∧
    (apiHandleRequest "not a url" (.error "net::ERR_NAME_NOT_RESOLVED")
        (.replyJson Json.null)).rejectedBeforeNetwork = false :=
  ⟨by decide, rfl, rfl⟩

/-- Claim C6 (confirmed).  On every exit path of both scan handlers —
success, navigation/extraction failure, analysis failure — the trace ends
with driver and browser released, having actually held both resources
mid-scan. -/
theorem claim_C6_resource_release :
    ∀ a b c d : Bool,
      ((mainScanResourceTrace a b).getLast? = some ⟨false, false⟩
        ∧ (⟨true, true⟩ : Resources) ∈ mainScanResourceTrace a b) ∧
      ((apiScanResourceTrace c d).getLast? = some ⟨false, false⟩
        ∧ (⟨true, true⟩ : Resources) ∈ apiScanResourceTrace c d) := by
  decide

/-- Claim C7 (confirmed).  Truncation before the analyzer cuts text longer
than the cap (5000 in src/api/main.py, 15000 in src/api.py) to exactly the
cap, passes shorter text through unmodified, and is idempotent. -/
theorem claim_C7_truncation (s : List Char) :
    (5000 < s.length → (mainLimitVisibleText s).length = 5000) ∧
    (s.length ≤ 5000 → mainLimitVisibleText s = s) ∧
    mainLimitVisibleText (mainLimitVisibleText s) = mainLimitVisibleText s ∧
    (15000 < s.length → (apiLimitVisibleText s).length = 15000) ∧
    (s.length ≤ 15000 → apiLimitVisibleText s = s) ∧
    apiLimitVisibleText (apiLimitVisibleText s) = apiLimitVisibleText s := by
  refine ⟨?_, ?_, ?_, ?_, ?_, ?_⟩
  · intro h
    simp [mainLimitVisibleText, List.length_take]
    omega
  · intro h
    exact List.take_of_length_le h
  · simp [mainLimitVisibleText, List.take_take]
  · intro h
    simp [apiLimitVisibleText, List.length_take]
    omega
  · intro h
    exact List.take_of_length_le h
  · simp [apiLimitVisibleText, List.take_take]

/-- Witness for C7: concrete over-cap and under-cap texts. -/
theorem claim_C7_truncation_witness :
    (mainLimitVisibleText (List.replicate 5001 'a')).length = 5000 ∧
    mainLimitVisibleText ['h', 'i'] = ['h', 'i'] ∧
    (apiLimitVisibleText (List.replicate 15001 'b')).length = 15000 ∧
    apiLimitVisibleText ['h'] = ['h'] := by
  refine ⟨(claim_C7_truncation _).1 ?_, (claim_C7_truncation _).2.1 ?_,
    (claim_C7_truncation _).2.2.2.1 ?_, (claim_C7_truncation _).2.2.2.2.1 ?_⟩
  · rw [List.length_replicate]; decide
  · decide
  · rw [List.length_replicate]; decide
  · decide

/-- Claim C8 (corrected).  The visible-text extraction of src/api/main.py
equals the ancestor-chain characterization — a text node contributes iff no
ancestor *strictly below the body* has display:none, visibility:hidden or
zero opacity and no ancestor is a script/style/noscript element — and its
output is trimmed with no two adjacent whitespace characters.  The body's
own computed style is never consulted (the walk stops at `parent !==
body`), which is the one deviation from the claim as stated. -/
theorem claim_C8_visible_text (d : Dom) :
    mainVisibleTextDom d = jsCleanup (joinParts (specVisibleParts [] d.children)) ∧
    wellTrimmed (mainVisibleTextDom d).data = true := by
  constructor
  · unfold mainVisibleTextDom mainVisibleTextList visibleTextOfForest
    rw [textPartsOf_removeSSN]
  · exact wellTrimmed_trimChars_collapseWs _

/-- Counterexample to C8 as stated: text directly under a body whose own
computed style is display:none is still included — even though its
ancestor chain (which contains the body) has display:none — because the
ancestor walk skips the body itself. -/
theorem claim_C8_counterexample :
    hiddenStyle ⟨"none", "visible", "1"⟩ = true ∧
    mainVisibleTextDom ⟨⟨"none", "visible", "1"⟩, [Node.text "secret"]⟩ = "secret" := by
  constructor
  · rfl
  · have h1 : textPartsOf (removeSSN [Node.text "secret"]) = ["secret"] := by
      simp [removeSSN, textPartsOf, walkTexts, acceptPart, acceptNode, trimString,
        trimChars, trimLead, trimTrail, String.data]
    show jsCleanup (joinParts (textPartsOf (removeSSN [Node.text "secret"]))) = "secret"
    rw [h1]
    have hj : joinParts ["secret"] = "secret" := rfl
    rw [hj]
    simp [jsCleanup, collapseWs, trimChars, trimLead, trimTrail, String.data]

/-- Claim C9 (confirmed).  The JSON-LD collection of src/api/main.py
enumerates scripts in document order and locally: it distributes over
sibling concatenation; a script parsing to a top-level array contributes
exactly its elements; an unparsable script contributes nothing; and every
collected entry comes from some selected script's successful parse —
either the parsed value itself or an element of a parsed top-level array,
never raw text. -/
theorem claim_C9_jsonld_flattening :
    (∀ a b : List Node,
      ldScriptContents (a ++ b) = ldScriptContents a ++ ldScriptContents b) ∧
    (∀ (parse : String → Option Json) (a b : List Node),
      collectJsonLdList parse (a ++ b)
        = collectJsonLdList parse a ++ collectJsonLdList parse b) ∧
    (∀ (parse : String → Option Json) (c : String) (vs : List Json),
      parse c = some (Json.arr vs) → jsonLdOfScript parse c = vs) ∧
    (∀ (parse : String → Option Json) (c : String),
      parse c = none → jsonLdOfScript parse c = []) ∧
    (∀ (parse : String → Option Json) (ns : List Node) (j : Json),
      j ∈ collectJsonLdList parse ns →
        ∃ c ∈ ldScriptContents ns, ∃ v, parse c = some v ∧
          (j = v ∨ ∃ vs, v = Json.arr vs ∧ j ∈ vs)) := by
  refine ⟨ldScriptContents_append, collectJsonLdList_append, ?_, ?_, ?_⟩
  · intro parse c vs h
    simp [jsonLdOfScript, h]
  · intro parse c h
    simp [jsonLdOfScript, h]
  · intro parse ns j hj
    simp only [collectJsonLdList, List.mem_flatten, List.mem_map] at hj
    obtain ⟨l, ⟨c, hc, rfl⟩, hjl⟩ := hj
    refine ⟨c, hc, ?_⟩
    cases hp : parse c with
    | none =>
      simp [jsonLdOfScript, hp] at hjl
    | some v =>
      cases v with
      | null =>
        simp [jsonLdOfScript, hp] at hjl
        exact ⟨Json.null, rfl, Or.inl hjl⟩
      | bool b =>
        simp [jsonLdOfScript, hp] at hjl
        exact ⟨Json.bool b, rfl, Or.inl hjl⟩
      | num n =>
        simp [jsonLdOfScript, hp] at hjl
        exact ⟨Json.num n, rfl, Or.inl hjl⟩
      | str s =>
        simp [jsonLdOfScript, hp] at hjl
        exact ⟨Json.str s, rfl, Or.inl hjl⟩
      | arr vs =>
        simp [jsonLdOfScript, hp] at hjl
        exact ⟨Json.arr vs, rfl, Or.inr ⟨vs, rfl, hjl⟩⟩
      | obj fields =>
        simp [jsonLdOfScript, hp] at hjl
        exact ⟨Json.obj fields, rfl, Or.inl hjl⟩

/-- Witness for C9: a concrete ld+json script whose content parses to a
two-element array is flattened, an unparsable one contributes nothing, and
a collected entry traces back to its script. -/
theorem claim_C9_witness :
    jsonLdOfScript
        (fun c => if c = "[1]" then some (Json.arr [Json.num 1]) else none) "[1]"
      = [Json.num 1] ∧
    jsonLdOfScript
        (fun c => if c = "[1]" then some (Json.arr [Json.num 1]) else none) "bad"
      = [] ∧
    (∃ c ∈ ldScriptContents
        [Node.elem "script" (some "application/ld+json") ⟨"block", "visible", "1"⟩
          [Node.text "[1]"]],
      ∃ v, (fun c => if c = "[1]" then some (Json.arr [Json.num 1]) else none) c
          = some v ∧
        (Json.num 1 = v ∨ ∃ vs, v = Json.arr vs ∧ Json.num 1 ∈ vs)) := by
  refine ⟨claim_C9_jsonld_flattening.2.2.1 _ _ _ (by simp),
    claim_C9_jsonld_flattening.2.2.2.1 _ _ (by simp),
    claim_C9_jsonld_flattening.2.2.2.2 _ _ _ ?_⟩
  simp [collectJsonLdList, ldScriptContents, textContentList, jsonLdOfScript]

/-- Claim C10 (confirmed).  In src/api/main.py the JSON-LD blocks are
collected from the intact document strictly before the visible-text step
mutates it; the mutation permanently removes every script/style/noscript
element, so the returned blocks are unaffected while any later DOM read —
in particular a second JSON-LD collection — sees a document with no script
elements and collects nothing. -/
theorem claim_C10_dom_mutation (parse : String → Option Json) (d : Dom) :
    (mainExtractPhase parse d).1 = collectJsonLdList parse d.children ∧
    hasSSN (mainExtractPhase parse d).2.2.children = false ∧
    collectJsonLdList parse (mainExtractPhase parse d).2.2.children = [] := by
  refine ⟨rfl, ?_, ?_⟩
  · exact hasSSN_removeSSN d.children
  · exact collectJsonLdList_removeSSN parse d.children
